import Mathlib

/-!
Shallow embedding of the Creative Hut backend (`back end/main.py`), a FastAPI
CRUD service over a relational store plus a flat uploads directory.

Modelling conventions:
* each SQLAlchemy table is a Lean structure plus a `List` field of the `DB`
  state; the uploads directory is an association list from path to file
  content;
* `db.query(T).filter(p).first()` is `List.find?`, `.all()` is `List.filter`,
  `.limit(n)` is `List.take n`, mutating an ORM row mutates the first matching
  list entry in place (`replaceFirst`), `db.delete(row)` erases the first
  matching entry (`List.eraseP`);
* `HTTPException(status_code, detail)` is the `HTTPException` structure and
  fallible handlers return `Except HTTPException`; handlers that mutate state
  return the (possibly updated) `DB` alongside the result;
* Python truthiness on an optional form string (`if name:`) is `truthyStr`:
  false exactly on `none` and on the empty string;
* `datetime.utcnow()` is an explicit `now : Nat` argument.
-/

/-- `HTTPException(status_code=..., detail=...)` raised by the handlers. -/
structure HTTPException where
  status_code : Nat
  detail : String
deriving Repr, DecidableEq

/-- Row of the `users` table (`class User`). -/
structure User where
  id : Nat
  name : String
  email : String
  role : String
  bio : Option String
  skills : Option String
  rating : ℚ
  profile_pic : Option String
deriving Repr, DecidableEq

/-- Row of the `gigs` table (`class Gig`). -/
structure Gig where
  id : Nat
  title : String
  description : String
  category : String
  price : Int
  revisions : Int
  delivery : Int
  image_path : String
  user_id : Nat
deriving Repr, DecidableEq

/-- Row of the `jobs` table (`class Job`). `freelancer` is nullable free text. -/
structure Job where
  id : Nat
  title : String
  description : String
  category : String
  status : String
  freelancer : Option String
  budget_type : String
  deadline : String
  skills : String
  buyer_id : Nat
deriving Repr, DecidableEq

/-- Row of the `courses` table (`class Course`). -/
structure Course where
  id : Nat
  title : String
  instructor : String
  description : String
  category : String
  price : Int
  thumbnail : Option String
deriving Repr, DecidableEq

/-- Row of the `enrollments` table (`class Enrollment`). -/
structure Enrollment where
  id : Nat
  user_id : Nat
  course_id : Nat
  created_at : Nat
deriving Repr, DecidableEq

/-- Full server state: the relational store plus the flat `uploads` directory
(association list from path to file content) and the synthetic-id counter used
when inserting a new enrollment row. -/
structure DB where
  users : List User
  gigs : List Gig
  jobs : List Job
  courses : List Course
  enrollments : List Enrollment
  next_enrollment_id : Nat
  files : List (String × String)
deriving Repr, DecidableEq

/-- Python truthiness of an optional form string: `if name:` is false for an
absent field (`None`) and for the empty string. -/
def truthyStr : Option String → Bool
  | none => false
  | some s => !(s == "")

/-- Mutating the ORM object returned by `.first()` updates exactly the first
matching row: replace the first element satisfying `p` by its image under `f`. -/
def replaceFirst (p : α → Bool) (f : α → α) : List α → List α
  | [] => []
  | x :: xs => if p x then f x :: xs else x :: replaceFirst p f xs

/-- Write a file at `path` in the uploads directory, silently overwriting any
existing file with the same name (`open(image_path, "wb")`). -/
def writeFile : List (String × String) → String → String → List (String × String)
  | [], path, content => [(path, content)]
  | kv :: rest, path, content =>
    if kv.1 == path then (path, content) :: rest
    else kv :: writeFile rest path content

/-- Look up a file by exact path in the uploads directory. -/
def readFile (files : List (String × String)) (path : String) : Option String :=
  (files.find? (fun kv => kv.1 == path)).map (fun kv => kv.2)

/-- `GET /users/{user_id}` (`get_user`). -/
def get_user (db : DB) (user_id : Nat) : Except HTTPException User :=
  match db.users.find? (fun u => u.id == user_id) with
  | none => .error ⟨404, "User not found"⟩
  | some u => .ok u

/-- `GET /courses/{course_id}` (`get_course`). -/
def get_course (db : DB) (course_id : Nat) : Except HTTPException Course :=
  match db.courses.find? (fun c => c.id == course_id) with
  | none => .error ⟨404, "Course not found"⟩
  | some c => .ok c

/-- First definition of `PUT /users/{user_id}` (`update_user`, lines 182-194):
every field is declared `Form(None)`, and only truthy (present and non-empty)
fields overwrite the stored values. -/
def update_user_v1 (db : DB) (user_id : Nat) (name bio skills : Option String) :
    Except HTTPException User × DB :=
  match db.users.find? (fun u => u.id == user_id) with
  | none => (.error ⟨404, "User not found"⟩, db)
  | some u =>
    let u' : User :=
      { u with
        name := if truthyStr name then name.getD u.name else u.name
        bio := if truthyStr bio then bio else u.bio
        skills := if truthyStr skills then skills else u.skills }
    (.ok u',
      { db with users := replaceFirst (fun x => x.id == user_id) (fun _ => u') db.users })

/-- Second definition of `PUT /users/{user_id}` (`update_user`, lines 203-219):
every field is declared `Form(...)` (required), so FastAPI rejects a request
missing any of them with a 422 validation error before the handler body runs;
otherwise all three stored fields are fully overwritten. -/
def update_user_v2 (db : DB) (user_id : Nat) (name bio skills : Option String) :
    Except HTTPException User × DB :=
  match name, bio, skills with
  | some n, some b, some s =>
    (match db.users.find? (fun u => u.id == user_id) with
     | none => (.error ⟨404, "User not found"⟩, db)
     | some u =>
       let u' : User := { u with name := n, bio := some b, skills := some s }
       (.ok u',
         { db with users := replaceFirst (fun x => x.id == user_id) (fun _ => u') db.users }))
  | _, _, _ => (.error ⟨422, "Field required"⟩, db)

/-- The two handler variants bound to `PUT /users/{user_id}`. -/
inductive UpdateUserVariant
  | v1
  | v2
deriving Repr, DecidableEq

/-- Route registration: each `@app.put("/users/{user_id}")` decorator appends a
route as the module is executed top to bottom, so the route table holds the
line-182 variant before the line-203 variant. -/
def put_users_route_table : List UpdateUserVariant := [.v1, .v2]

/-- Both registered routes fully match any `PUT /users/{user_id}` request
(same method, same path pattern). -/
def matches_put_users (_ : UpdateUserVariant) : Bool := true

/-- Starlette dispatch: scan the route table in registration order and run the
first route that fully matches the request. -/
def effective_put_users_route : Option UpdateUserVariant :=
  put_users_route_table.find? matches_put_users

/-- The `PUT /users/{user_id}` operation as the running server exposes it:
dispatch through the route table to the effective handler variant. -/
def update_user_effective (db : DB) (user_id : Nat)
    (name bio skills : Option String) : Except HTTPException User × DB :=
  match effective_put_users_route with
  | some .v1 => update_user_v1 db user_id name bio skills
  | some .v2 => update_user_v2 db user_id name bio skills
  | none => (.error ⟨405, "Method Not Allowed"⟩, db)

/-- `POST /users/{user_id}/upload-pic` (`upload_profile_pic`): the uploaded
file is written under its original filename first; only then is the user
looked up, so on a missing user the handler raises 404 with the file already
on disk. -/
def upload_profile_pic (db : DB) (user_id : Nat) (filename content : String) :
    Except HTTPException String × DB :=
  let image_path := "uploads/" ++ filename
  let db1 := { db with files := writeFile db.files image_path content }
  match db1.users.find? (fun u => u.id == user_id) with
  | none => (.error ⟨404, "User not found"⟩, db1)
  | some _ =>
    (.ok image_path,
      { db1 with
        users := replaceFirst (fun x => x.id == user_id)
          (fun x => { x with profile_pic := some image_path }) db1.users })

/-- `GET /gigs/freelancer/{freelancer_id}` (`get_gigs_by_freelancer`). -/
def get_gigs_by_freelancer (db : DB) (freelancer_id : Nat) : List Gig :=
  db.gigs.filter (fun g => g.user_id == freelancer_id)

/-- `GET /gigs/image/{filename}` (`get_image`): serve the raw file stored at
`uploads/{filename}`, 404 if no such file exists. -/
def get_image (db : DB) (filename : String) : Except HTTPException String :=
  let path := "uploads/" ++ filename
  match readFile db.files path with
  | none => .error ⟨404, "Image not found"⟩
  | some content => .ok content

/-- `PUT /gigs/{gig_id}` (`update_gig`): overwrite title, category and price of
the first gig row with the given id. -/
def update_gig (db : DB) (gig_id : Nat) (title category : String) (price : Int) :
    Except HTTPException Gig × DB :=
  match db.gigs.find? (fun g => g.id == gig_id) with
  | none => (.error ⟨404, "Gig not found"⟩, db)
  | some g =>
    let g' : Gig := { g with title := title, category := category, price := price }
    (.ok g',
      { db with gigs := replaceFirst (fun x => x.id == gig_id) (fun _ => g') db.gigs })

/-- `DELETE /gigs/{gig_id}` (`delete_gig`): erase the first gig row with the
given id; the uploads directory is untouched. -/
def delete_gig (db : DB) (gig_id : Nat) : Except HTTPException String × DB :=
  match db.gigs.find? (fun g => g.id == gig_id) with
  | none => (.error ⟨404, "Gig not found"⟩, db)
  | some _ =>
    (.ok "Gig deleted", { db with gigs := db.gigs.eraseP (fun g => g.id == gig_id) })

/-- Modelled from the spec: a gig Get-by-id operation. No `GET /gigs/{gig_id}`
route exists in `main.py` (only list, list-by-freelancer, image, update and
delete); the spec nevertheless promises "Get(gig.id) fails NotFound" after a
delete, so the lookup is modelled like the other single-entity Get endpoints:
first row with the id, 404 when absent. -/
def get_gig_by_id (db : DB) (gig_id : Nat) : Except HTTPException Gig :=
  match db.gigs.find? (fun g => g.id == gig_id) with
  | none => .error ⟨404, "Gig not found"⟩
  | some g => .ok g

/-- `PUT /jobs/{job_id}` (`update_job`): `title`, `category`, `deadline` and
`status` are required form fields, `freelancer` is `Form(None)`; the handler
assigns all five onto the row unconditionally, so an absent `freelancer`
stores `None`. -/
def update_job (db : DB) (job_id : Nat) (title category deadline status : String)
    (freelancer : Option String) : Except HTTPException Job × DB :=
  match db.jobs.find? (fun j => j.id == job_id) with
  | none => (.error ⟨404, "Job not found"⟩, db)
  | some j =>
    let j' : Job :=
      { j with
        title := title, category := category, deadline := deadline,
        status := status, freelancer := freelancer }
    (.ok j',
      { db with jobs := replaceFirst (fun x => x.id == job_id) (fun _ => j') db.jobs })

/-- `GET /courses/` (`get_all_courses`): `if category:` skips the category
filter when the query parameter is absent or empty (Python truthiness);
`is_free` filters `price == 0` when true and `price > 0` when false. -/
def get_all_courses (db : DB) (category : Option String) (is_free : Option Bool) :
    List Course :=
  let q1 :=
    if truthyStr category then
      db.courses.filter (fun c => c.category == category.getD "")
    else
      db.courses
  match is_free with
  | none => q1
  | some true => q1.filter (fun c => c.price == 0)
  | some false => q1.filter (fun c => decide (0 < c.price))

/-- `POST /enrollments/` (`enroll_in_course`): look up an existing enrollment
row for the exact `(user_id, course_id)` pair; raise 400 if one exists,
otherwise insert a fresh row with the current timestamp and return its id. -/
def enroll_in_course (db : DB) (user_id course_id : Nat) (now : Nat) :
    Except HTTPException Nat × DB :=
  match db.enrollments.find? (fun e => e.user_id == user_id && e.course_id == course_id) with
  | some _ => (.error ⟨400, "Already enrolled"⟩, db)
  | none =>
    let e : Enrollment :=
      { id := db.next_enrollment_id, user_id := user_id, course_id := course_id,
        created_at := now }
    (.ok e.id,
      { db with
        enrollments := db.enrollments ++ [e],
        next_enrollment_id := db.next_enrollment_id + 1 })

/-- `GET /enrollments/{user_id}` (`get_user_enrollments`). -/
def get_user_enrollments (db : DB) (user_id : Nat) : List Enrollment :=
  db.enrollments.filter (fun e => e.user_id == user_id)

/-- One gig attached to a top-freelancer entry (`gig_data` dict). -/
structure GigSummary where
  title : String
  price : Int
  delivery : Int
deriving Repr, DecidableEq

/-- One entry of the `GET /top-freelancers/` response. -/
structure TopFreelancerEntry where
  id : Nat
  name : String
  skill : String
  rating : ℚ
  reviews : Nat
  profile_pic : Option String
  gigs : List GigSummary
deriving Repr, DecidableEq

/-- `user.bio or "Freelancer"`: Python `or` falls through on `None` and on the
empty string. -/
def bioOrDefault : Option String → String
  | none => "Freelancer"
  | some s => if s == "" then "Freelancer" else s

/-- `GET /top-freelancers/` (`get_top_freelancers`): the first six users whose
role is `"freelancer"`, each with at most one of their gigs attached and with
the hardcoded rating `4.8` (= 24/5) and review count `120`. -/
def get_top_freelancers (db : DB) : List TopFreelancerEntry :=
  let top_users := (db.users.filter (fun u => u.role == "freelancer")).take 6
  top_users.map (fun u =>
    let gigs := (db.gigs.filter (fun g => g.user_id == u.id)).take 1
    { id := u.id
      name := u.name
      skill := bioOrDefault u.bio
      rating := 24 / 5
      reviews := 120
      profile_pic := u.profile_pic
      gigs := gigs.map (fun g => ⟨g.title, g.price, g.delivery⟩) })

/-! ## Concrete fixtures used by counterexamples and witnesses -/

/-- The empty store, as right after `Base.metadata.create_all`. -/
def dbEmpty : DB :=
  { users := [], gigs := [], jobs := [], courses := [], enrollments := [],
    next_enrollment_id := 1, files := [] }

/-- A freelancer user row. -/
def userAna : User :=
  { id := 1, name := "Ana", email := "ana@x.com", role := "freelancer",
    bio := some "b", skills := some "s", rating := 0, profile_pic := none }

/-- Store holding just `userAna`. -/
def dbAna : DB := { dbEmpty with users := [userAna] }

/-- A gig row owned by `userAna`. -/
def gigLogo : Gig :=
  { id := 1, title := "Logo design", description := "d", category := "Design",
    price := 50, revisions := 2, delivery := 3,
    image_path := "uploads/logo.png", user_id := 1 }

/-- Store holding `userAna`, her gig and the gig's image file. -/
def dbAnaGig : DB :=
  { dbEmpty with
    users := [userAna], gigs := [gigLogo],
    files := [("uploads/logo.png", "PNGDATA")] }

/-- The top-freelancers entry generated for `userAna` in `dbAnaGig`. -/
def entryAna : TopFreelancerEntry :=
  { id := 1, name := "Ana", skill := "b", rating := 24 / 5, reviews := 120,
    profile_pic := none,
    gigs := [{ title := "Logo design", price := 50, delivery := 3 }] }

/-- A job row with no assigned freelancer. -/
def jobA : Job :=
  { id := 1, title := "T", description := "D", category := "OldCat",
    status := "Pending", freelancer := none, budget_type := "fixed",
    deadline := "2025-01-01", skills := "sk", buyer_id := 7 }

/-- Store holding just `jobA`. -/
def dbJob : DB := { dbEmpty with jobs := [jobA] }

/-- A job row with a previously assigned freelancer. -/
def jobB : Job := { jobA with id := 2, freelancer := some "Bob" }

/-- Store holding just `jobB`. -/
def dbJobB : DB := { dbEmpty with jobs := [jobB] }

/-- A course row in category `"Design"`. -/
def courseDesign : Course :=
  { id := 1, title := "Figma", instructor := "I", description := "d",
    category := "Design", price := 10, thumbnail := none }

/-- Store holding just `courseDesign`. -/
def dbDesign : DB := { dbEmpty with courses := [courseDesign] }

/-! ## Helper lemmas about the list primitives of the embedding -/

theorem length_replaceFirst (p : α → Bool) (f : α → α) (l : List α) :
    (replaceFirst p f l).length = l.length := by
  induction l with
  | nil => rfl
  | cons a l ih =>
    by_cases ha : p a = true <;> simp [replaceFirst, ha, ih]

theorem find?_replaceFirst_same (p : α → Bool) (f : α → α) {l : List α} {x : α}
    (hfind : l.find? p = some x) (hpf : p (f x) = true) :
    (replaceFirst p f l).find? p = some (f x) := by
  induction l with
  | nil => simp at hfind
  | cons a l ih =>
    by_cases ha : p a = true
    · rw [List.find?_cons_of_pos l ha] at hfind
      cases hfind
      simp [replaceFirst, ha, List.find?_cons_of_pos _ hpf]
    · rw [List.find?_cons_of_neg l ha] at hfind
      simp only [replaceFirst, if_neg ha]
      rw [List.find?_cons_of_neg _ ha]
      exact ih hfind

theorem mem_replaceFirst_of_neg (p : α → Bool) (f : α → α) {l : List α} {x : α}
    (hx : x ∈ l) (hpx : p x = false) : x ∈ replaceFirst p f l := by
  induction l with
  | nil => cases hx
  | cons a l ih =>
    by_cases ha : p a = true
    · simp only [replaceFirst, if_pos ha]
      rcases List.mem_cons.mp hx with rfl | h
      · rw [ha] at hpx; cases hpx
      · exact List.mem_cons_of_mem _ h
    · simp only [replaceFirst, if_neg ha]
      rcases List.mem_cons.mp hx with rfl | h
      · exact List.mem_cons_self _ _
      · exact List.mem_cons_of_mem _ (ih h)

theorem find?_eraseP_eq_none (p : α → Bool) {l : List α}
    (hcount : l.countP p ≤ 1) : (l.eraseP p).find? p = none := by
  induction l with
  | nil => rfl
  | cons a l ih =>
    by_cases ha : p a = true
    · rw [List.eraseP_cons_of_pos ha, List.find?_eq_none]
      intro x hx
      have h0 : l.countP p = 0 := by
        rw [List.countP_cons_of_pos _ l ha] at hcount; omega
      have := List.countP_eq_zero.mp h0 x hx
      simpa using this
    · rw [List.eraseP_cons_of_neg ha, List.find?_cons_of_neg _ ha]
      apply ih
      rwa [List.countP_cons_of_neg _ l ha] at hcount

theorem readFile_writeFile_self (fs : List (String × String)) (path content : String) :
    readFile (writeFile fs path content) path = some content := by
  induction fs with
  | nil => simp [writeFile, readFile]
  | cons kv fs ih =>
    by_cases h : kv.1 == path
    · simp [writeFile, h, readFile]
    · simpa [writeFile, h, readFile, List.find?_cons] using ih

/-- Starlette dispatch picks the first fully matching route, so the running
server's `PUT /users/{user_id}` is the line-182 variant. -/
theorem update_user_effective_eq_v1 (db : DB) (uid : Nat)
    (name bio skills : Option String) :
    update_user_effective db uid name bio skills =
      update_user_v1 db uid name bio skills := rfl

/-- C1: Enrollment Create fails with Conflict (400 "Already enrolled") exactly
when an enrollment row with the same `(user_id, course_id)` pair already
exists; when no such row exists the call succeeds, appends exactly one new
enrollment row, and that row appears in ListByUser for the same user. -/
theorem enrollment_create_conflict_iff (db : DB) (uid cid now : Nat) :
    ((enroll_in_course db uid cid now).1 = .error ⟨400, "Already enrolled"⟩ ↔
      ∃ e ∈ db.enrollments, e.user_id = uid ∧ e.course_id = cid) ∧
    ((∀ e ∈ db.enrollments, ¬(e.user_id = uid ∧ e.course_id = cid)) →
      ∃ enr : Enrollment,
        (enroll_in_course db uid cid now).1 = .ok enr.id ∧
        (enroll_in_course db uid cid now).2.enrollments = db.enrollments ++ [enr] ∧
        enr ∈ get_user_enrollments (enroll_in_course db uid cid now).2 uid) := by
  cases h : db.enrollments.find? (fun e => e.user_id == uid && e.course_id == cid) with
  | some e =>
    have he : e ∈ db.enrollments := List.mem_of_find?_eq_some h
    have hp := List.find?_some h
    simp only [Bool.and_eq_true, beq_iff_eq] at hp
    constructor
    · constructor
      · intro _; exact ⟨e, he, hp.1, hp.2⟩
      · intro _; simp [enroll_in_course, h]
    · intro hall
      exact absurd ⟨hp.1, hp.2⟩ (hall e he)
  | none =>
    have hnone := List.find?_eq_none.mp h
    constructor
    · constructor
      · intro hcontra
        simp [enroll_in_course, h] at hcontra
      · rintro ⟨e, he, h1, h2⟩
        exact absurd (by simp [h1, h2]) (hnone e he)
    · intro _
      refine ⟨⟨db.next_enrollment_id, uid, cid, now⟩, ?_, ?_, ?_⟩
      · simp [enroll_in_course, h]
      · simp [enroll_in_course, h]
      · simp [enroll_in_course, h, get_user_enrollments]

/-- Witness for C1 at the empty store. -/
theorem enrollment_create_conflict_iff_witness :
    (∀ e ∈ dbEmpty.enrollments, ¬(e.user_id = 1 ∧ e.course_id = 2)) ∧
    (∃ enr : Enrollment,
      (enroll_in_course dbEmpty 1 2 0).1 = .ok enr.id ∧
      (enroll_in_course dbEmpty 1 2 0).2.enrollments = dbEmpty.enrollments ++ [enr] ∧
      enr ∈ get_user_enrollments (enroll_in_course dbEmpty 1 2 0).2 1) :=
  ⟨by decide, (enrollment_create_conflict_iff dbEmpty 1 2 0).2 (by decide)⟩

/-- C4: every single-entity operation on an id resolving to no row (user get,
course get, user update, gig update, job update, gig delete) fails with a 404
NotFound, returns the store unchanged, and never silently no-ops. -/
theorem missing_id_not_found (db : DB) (uid cid gid jid : Nat)
    (name bio skills : Option String) (gt gc : String) (gp : Int)
    (jt jc jd js : String) (jf : Option String)
    (hu : db.users.find? (fun u => u.id == uid) = none)
    (hc : db.courses.find? (fun c => c.id == cid) = none)
    (hg : db.gigs.find? (fun g => g.id == gid) = none)
    (hj : db.jobs.find? (fun j => j.id == jid) = none) :
    get_user db uid = .error ⟨404, "User not found"⟩ ∧
    get_course db cid = .error ⟨404, "Course not found"⟩ ∧
    update_user_effective db uid name bio skills = (.error ⟨404, "User not found"⟩, db) ∧
    update_gig db gid gt gc gp = (.error ⟨404, "Gig not found"⟩, db) ∧
    update_job db jid jt jc jd js jf = (.error ⟨404, "Job not found"⟩, db) ∧
    delete_gig db gid = (.error ⟨404, "Gig not found"⟩, db) := by
  rw [update_user_effective_eq_v1]
  refine ⟨?_, ?_, ?_, ?_, ?_, ?_⟩ <;>
    simp [get_user, get_course, update_user_v1, update_gig, update_job,
      delete_gig, hu, hc, hg, hj]

/-- Witness for C4 at the empty store. -/
theorem missing_id_not_found_witness :
    get_user dbEmpty 9 = .error ⟨404, "User not found"⟩ ∧
    get_course dbEmpty 9 = .error ⟨404, "Course not found"⟩ ∧
    update_user_effective dbEmpty 9 none none none =
      (.error ⟨404, "User not found"⟩, dbEmpty) ∧
    update_gig dbEmpty 9 "t" "c" 0 = (.error ⟨404, "Gig not found"⟩, dbEmpty) ∧
    update_job dbEmpty 9 "t" "c" "d" "s" none =
      (.error ⟨404, "Job not found"⟩, dbEmpty) ∧
    delete_gig dbEmpty 9 = (.error ⟨404, "Gig not found"⟩, dbEmpty) :=
  missing_id_not_found dbEmpty 9 9 9 9 none none none "t" "c" 0 "t" "c" "d" "s" none
    rfl rfl rfl rfl

/-- C2 counterexample: the request-time handler for `PUT /users/{user_id}` is
the first-registered variant, not the second: a request that omits `name`
succeeds (it is not rejected as missing a required field) and leaves the
stored name unchanged. -/
theorem update_user_effective_cex :
    effective_put_users_route = some UpdateUserVariant.v1 ∧
    effective_put_users_route ≠ some UpdateUserVariant.v2 ∧
    (update_user_effective dbAna 1 none (some "newbio") (some "ns")).1 =
      .ok { userAna with bio := some "newbio", skills := some "ns" } := by
  refine ⟨rfl, by decide, rfl⟩

/-- C2 (amended): the effective `PUT /users/{user_id}` handler is the
first-registered partial-update variant — Starlette dispatches a request to
the first fully matching route, so the second definition is unreachable, not
the first. Each of name, bio, skills is optional; a field supplied with a
non-empty value overwrites the stored value, while a missing or empty field
leaves the stored value unchanged; all other user fields are untouched. -/
theorem update_user_effective_spec (db : DB) (uid : Nat)
    (name bio skills : Option String) (u : User)
    (hfind : db.users.find? (fun x => x.id == uid) = some u) :
    effective_put_users_route = some UpdateUserVariant.v1 ∧
    ∃ u', (update_user_effective db uid name bio skills).1 = .ok u' ∧
      u'.name = (if truthyStr name then name.getD u.name else u.name) ∧
      u'.bio = (if truthyStr bio then bio else u.bio) ∧
      u'.skills = (if truthyStr skills then skills else u.skills) ∧
      u'.id = u.id ∧ u'.email = u.email ∧ u'.role = u.role ∧
      u'.rating = u.rating ∧ u'.profile_pic = u.profile_pic ∧
      (update_user_effective db uid name bio skills).2.users.find?
        (fun x => x.id == uid) = some u' := by
  refine ⟨rfl, ?_⟩
  rw [update_user_effective_eq_v1]
  have hp := List.find?_some hfind
  simp only [update_user_v1, hfind]
  refine ⟨_, rfl, rfl, rfl, rfl, rfl, rfl, rfl, rfl, rfl, ?_⟩
  exact find?_replaceFirst_same _ _ hfind hp

/-- Witness for C2 (amended) at a one-user store. -/
theorem update_user_effective_spec_witness :
    dbAna.users.find? (fun x => x.id == 1) = some userAna ∧
    (effective_put_users_route = some UpdateUserVariant.v1 ∧
      ∃ u', (update_user_effective dbAna 1 (some "N") none (some "")).1 = .ok u' ∧
        u'.name = (if truthyStr (some "N") then (some "N").getD userAna.name
          else userAna.name) ∧
        u'.bio = (if truthyStr none then none else userAna.bio) ∧
        u'.skills = (if truthyStr (some "") then some "" else userAna.skills) ∧
        u'.id = userAna.id ∧ u'.email = userAna.email ∧ u'.role = userAna.role ∧
        u'.rating = userAna.rating ∧ u'.profile_pic = userAna.profile_pic ∧
        (update_user_effective dbAna 1 (some "N") none (some "")).2.users.find?
          (fun x => x.id == 1) = some u') :=
  ⟨rfl, update_user_effective_spec dbAna 1 (some "N") none (some "") userAna rfl⟩

/-- C3 counterexample: with the category filter supplied as the empty string
the handler skips the filter (Python truthiness), so a stored course whose
category is "Design" — not equal to the supplied string — is returned. -/
theorem course_list_category_cex :
    courseDesign ∈ get_all_courses dbDesign (some "") none ∧
    courseDesign.category ≠ "" := by
  exact ⟨by decide, by decide⟩

/-- C3 (amended): Course List filters by category only when the supplied
category is non-empty (an empty or omitted category imposes no constraint);
the category test is exact case-sensitive string equality; `is_free=true`
keeps exactly the `price == 0` rows and `is_free=false` exactly the
`price > 0` rows; the filters compose as a conjunction and omitting both
returns every stored course. -/
theorem get_all_courses_characterization (db : DB) (category : Option String)
    (is_free : Option Bool) :
    get_all_courses db category is_free =
      db.courses.filter (fun c =>
        (match is_free with
         | none => true
         | some true => c.price == 0
         | some false => decide (0 < c.price)) &&
        (!truthyStr category || c.category == category.getD "")) := by
  unfold get_all_courses
  cases is_free with
  | none => cases hcat : truthyStr category <;> simp [hcat]
  | some b =>
    cases b <;> cases hcat : truthyStr category <;>
      simp [hcat, List.filter_filter]

/-- C10: supplying the empty string as the category query parameter behaves
exactly as omitting the parameter; with no is_free filter every stored course
is returned. -/
theorem course_list_empty_category (db : DB) (is_free : Option Bool) :
    get_all_courses db (some "") is_free = get_all_courses db none is_free ∧
    get_all_courses db (some "") none = db.courses := ⟨rfl, rfl⟩

/-- C5: deleting an existing gig removes exactly that gig's row — a
subsequent Get-by-id (spec-modelled) of the same id fails with NotFound, the
owner's ListByFreelancer no longer contains an entry with that id, exactly
one row is gone and every other row survives — while the uploads directory is
untouched, so GetImage behaves identically before and after. -/
theorem delete_gig_spec (db : DB) (gid : Nat) (g : Gig)
    (hfind : db.gigs.find? (fun x => x.id == gid) = some g)
    (hkey : db.gigs.countP (fun x => x.id == gid) ≤ 1) :
    ∃ db' : DB,
      delete_gig db gid = (.ok "Gig deleted", db') ∧
      get_gig_by_id db' gid = .error ⟨404, "Gig not found"⟩ ∧
      (∀ x ∈ get_gigs_by_freelancer db' g.user_id, x.id ≠ gid) ∧
      db'.gigs.length = db.gigs.length - 1 ∧
      (∀ x ∈ db.gigs, x.id ≠ gid → x ∈ db'.gigs) ∧
      db'.files = db.files ∧
      (∀ filename, get_image db' filename = get_image db filename) := by
  have herase : (db.gigs.eraseP (fun x => x.id == gid)).find?
      (fun x => x.id == gid) = none :=
    find?_eraseP_eq_none _ hkey
  refine ⟨{ db with gigs := db.gigs.eraseP (fun x => x.id == gid) },
    ?_, ?_, ?_, ?_, ?_, rfl, fun _ => rfl⟩
  · simp [delete_gig, hfind]
  · simp [get_gig_by_id, herase]
  · intro x hx
    have hx2 : x ∈ db.gigs.eraseP (fun y => y.id == gid) :=
      (List.mem_filter.mp hx).1
    have := List.find?_eq_none.mp herase x hx2
    simpa using this
  · have hp := List.find?_some hfind
    exact List.length_eraseP_of_mem (List.mem_of_find?_eq_some hfind) hp
  · intro x hx hne
    exact (List.mem_eraseP_of_neg (by simpa using hne)).2 hx

/-- Witness for C5 at a store with one gig and its image file. -/
theorem delete_gig_spec_witness :
    dbAnaGig.gigs.find? (fun x => x.id == 1) = some gigLogo ∧
    dbAnaGig.gigs.countP (fun x => x.id == 1) ≤ 1 ∧
    (∃ db' : DB,
      delete_gig dbAnaGig 1 = (.ok "Gig deleted", db') ∧
      get_gig_by_id db' 1 = .error ⟨404, "Gig not found"⟩ ∧
      (∀ x ∈ get_gigs_by_freelancer db' gigLogo.user_id, x.id ≠ 1) ∧
      db'.gigs.length = dbAnaGig.gigs.length - 1 ∧
      (∀ x ∈ dbAnaGig.gigs, x.id ≠ 1 → x ∈ db'.gigs) ∧
      db'.files = dbAnaGig.files ∧
      (∀ filename, get_image db' filename = get_image dbAnaGig filename)) :=
  ⟨rfl, by decide, delete_gig_spec dbAnaGig 1 gigLogo rfl (by decide)⟩

/-- C6: TopFreelancers returns at most six entries, each derived from a stored
user whose role is "freelancer", each carrying at most one gig and the
hardcoded rating 4.8 (= 24/5) and review count 120 regardless of stored
data. -/
theorem top_freelancers_spec (db : DB) :
    (get_top_freelancers db).length ≤ 6 ∧
    ∀ entry ∈ get_top_freelancers db,
      (∃ u ∈ db.users, u.role = "freelancer" ∧ entry.id = u.id ∧
        entry.name = u.name) ∧
      entry.gigs.length ≤ 1 ∧ entry.rating = 24 / 5 ∧ entry.reviews = 120 := by
  constructor
  · simp only [get_top_freelancers, List.length_map]
    exact List.length_take_le 6 _
  · intro entry hentry
    simp only [get_top_freelancers, List.mem_map] at hentry
    obtain ⟨u, hu, rfl⟩ := hentry
    have hu2 := List.mem_filter.mp (List.mem_of_mem_take hu)
    refine ⟨⟨u, hu2.1, by simpa using hu2.2, rfl, rfl⟩, ?_, rfl, rfl⟩
    simp only [List.length_map]
    exact List.length_take_le 1 _

/-- Witness for C6 at a store with one freelancer owning one gig. -/
theorem top_freelancers_spec_witness :
    entryAna ∈ get_top_freelancers dbAnaGig ∧
    ((∃ u ∈ dbAnaGig.users, u.role = "freelancer" ∧ entryAna.id = u.id ∧
        entryAna.name = u.name) ∧
      entryAna.gigs.length ≤ 1 ∧ entryAna.rating = 24 / 5 ∧
      entryAna.reviews = 120) := by
  have hmem : entryAna ∈ get_top_freelancers dbAnaGig :=
    List.mem_singleton.mpr rfl
  exact ⟨hmem, (top_freelancers_spec dbAnaGig).2 entryAna hmem⟩

/-- C7 counterexample: Job Update stores the supplied category — after
updating the stored job whose category was "OldCat" with category "NewCat",
the stored row carries "NewCat", so the category does not retain its prior
value as the claim (which lists category among both the overwritten and the
retained fields) would require. -/
theorem update_job_category_cex :
    ((update_job dbJob 1 "T2" "NewCat" "2026-01-01" "Active" none).2.jobs.map
      (fun j => j.category)) = ["NewCat"] ∧
    jobA.category = "OldCat" ∧ ("NewCat" : String) ≠ "OldCat" :=
  ⟨rfl, rfl, by decide⟩

/-- C7 (amended): for every existing job, Job Update overwrites title,
category, deadline and status with the supplied values and freelancer with the
optional supplied value; description, budget_type, skills and buyer retain
their prior values (category does not — it is among the overwritten fields),
and every other job row, every other table and the uploads directory are
unchanged. -/
theorem update_job_frame (db : DB) (jid : Nat) (t c d s : String)
    (f : Option String) (j : Job)
    (hfind : db.jobs.find? (fun x => x.id == jid) = some j) :
    ∃ j' db', update_job db jid t c d s f = (.ok j', db') ∧
      j'.title = t ∧ j'.category = c ∧ j'.deadline = d ∧ j'.status = s ∧
      j'.freelancer = f ∧
      j'.id = j.id ∧ j'.description = j.description ∧
      j'.budget_type = j.budget_type ∧ j'.skills = j.skills ∧
      j'.buyer_id = j.buyer_id ∧
      db'.jobs.find? (fun x => x.id == jid) = some j' ∧
      db'.jobs.length = db.jobs.length ∧
      (∀ x ∈ db.jobs, x.id ≠ jid → x ∈ db'.jobs) ∧
      db'.users = db.users ∧ db'.gigs = db.gigs ∧ db'.courses = db.courses ∧
      db'.enrollments = db.enrollments ∧ db'.files = db.files := by
  have hp := List.find?_some hfind
  simp only [update_job, hfind]
  refine ⟨_, _, rfl, rfl, rfl, rfl, rfl, rfl, rfl, rfl, rfl, rfl, rfl,
    find?_replaceFirst_same _ _ hfind hp, length_replaceFirst _ _ _, ?_,
    rfl, rfl, rfl, rfl, rfl⟩
  intro x hx hne
  exact mem_replaceFirst_of_neg _ _ hx (by simpa using hne)

/-- Witness for C7 (amended) at a one-job store. -/
theorem update_job_frame_witness :
    dbJob.jobs.find? (fun x => x.id == 1) = some jobA ∧
    (∃ j' db', update_job dbJob 1 "T2" "NewCat" "2026-01-01" "Active"
        (some "F") = (.ok j', db') ∧
      j'.title = "T2" ∧ j'.category = "NewCat" ∧ j'.deadline = "2026-01-01" ∧
      j'.status = "Active" ∧ j'.freelancer = some "F" ∧
      j'.id = jobA.id ∧ j'.description = jobA.description ∧
      j'.budget_type = jobA.budget_type ∧ j'.skills = jobA.skills ∧
      j'.buyer_id = jobA.buyer_id ∧
      db'.jobs.find? (fun x => x.id == 1) = some j' ∧
      db'.jobs.length = dbJob.jobs.length ∧
      (∀ x ∈ dbJob.jobs, x.id ≠ 1 → x ∈ db'.jobs) ∧
      db'.users = dbJob.users ∧ db'.gigs = dbJob.gigs ∧
      db'.courses = dbJob.courses ∧ db'.enrollments = dbJob.enrollments ∧
      db'.files = dbJob.files) :=
  ⟨rfl, update_job_frame dbJob 1 "T2" "NewCat" "2026-01-01" "Active"
    (some "F") jobA rfl⟩

/-- C8: Job Update called without the optional freelancer field stores None in
the freelancer column, erasing a previously assigned freelancer name rather
than leaving it unchanged. -/
theorem update_job_clears_freelancer (db : DB) (jid : Nat)
    (t c d s : String) (j : Job) (prev : String)
    (hfind : db.jobs.find? (fun x => x.id == jid) = some j)
    (hprev : j.freelancer = some prev) :
    ∃ j', (update_job db jid t c d s none).1 = .ok j' ∧
      j'.freelancer = none ∧ j'.freelancer ≠ j.freelancer ∧
      (update_job db jid t c d s none).2.jobs.find?
        (fun x => x.id == jid) = some j' := by
  have hp := List.find?_some hfind
  simp only [update_job, hfind]
  refine ⟨_, rfl, rfl, by simp [hprev], find?_replaceFirst_same _ _ hfind hp⟩

/-- Witness for C8 at a store whose job has freelancer "Bob". -/
theorem update_job_clears_freelancer_witness :
    dbJobB.jobs.find? (fun x => x.id == 2) = some jobB ∧
    jobB.freelancer = some "Bob" ∧
    (∃ j', (update_job dbJobB 2 "t" "c" "d" "s" none).1 = .ok j' ∧
      j'.freelancer = none ∧ j'.freelancer ≠ jobB.freelancer ∧
      (update_job dbJobB 2 "t" "c" "d" "s" none).2.jobs.find?
        (fun x => x.id == 2) = some j') :=
  ⟨rfl, rfl, update_job_clears_freelancer dbJobB 2 "t" "c" "d" "s" jobB "Bob"
    rfl rfl⟩

/-- C9: UploadPicture with an unresolvable user id fails with NotFound and
modifies no user row, but the uploaded file has already been written into the
uploads directory under its original filename — overwriting any file of that
name — before the user lookup runs, so GetImage on that filename succeeds
afterwards. -/
theorem upload_pic_missing_user (db : DB) (uid : Nat) (filename content : String)
    (hu : db.users.find? (fun u => u.id == uid) = none) :
    (upload_profile_pic db uid filename content).1 =
      .error ⟨404, "User not found"⟩ ∧
    (upload_profile_pic db uid filename content).2.users = db.users ∧
    readFile (upload_profile_pic db uid filename content).2.files
      ("uploads/" ++ filename) = some content ∧
    get_image (upload_profile_pic db uid filename content).2 filename =
      .ok content := by
  have hw := readFile_writeFile_self db.files ("uploads/" ++ filename) content
  refine ⟨?_, ?_, ?_, ?_⟩
  · simp [upload_profile_pic, hu]
  · simp [upload_profile_pic, hu]
  · simpa [upload_profile_pic, hu] using hw
  · simp only [upload_profile_pic, hu, get_image]
    rw [hw]

/-- Witness for C9 at the empty store. -/
theorem upload_pic_missing_user_witness :
    (upload_profile_pic dbEmpty 1 "p.png" "DATA").1 =
      .error ⟨404, "User not found"⟩ ∧
    (upload_profile_pic dbEmpty 1 "p.png" "DATA").2.users = dbEmpty.users ∧
    readFile (upload_profile_pic dbEmpty 1 "p.png" "DATA").2.files
      ("uploads/" ++ "p.png") = some "DATA" ∧
    get_image (upload_profile_pic dbEmpty 1 "p.png" "DATA").2 "p.png" =
      .ok "DATA" :=
  upload_pic_missing_user dbEmpty 1 "p.png" "DATA" rfl
